import Mathlib

/-!
Shallow embedding of `wikistats.py`: a command-line tool printing user
activity statistics for a wiki.  The two aggregators (`alltime` and
`peruser`) are modelled as pure functions over lists of contribution
records; the wiki client that produces those records is an external
collaborator and is not modelled.  Python dictionaries are modelled as
insertion-ordered association lists, Python exceptions (`ValueError`,
`IndexError`) as `Except Unit`, and CPython's `datetime.isocalendar`
is reproduced on a proleptic-Gregorian date type.
-/

namespace Wikistats

/-! ### Dates and CPython `isocalendar` -/

/-- A proleptic-Gregorian calendar date, as held by `datetime`. -/
structure Date where
  year : Nat
  month : Nat
  day : Nat
deriving DecidableEq, Repr

def isLeap (y : Nat) : Bool :=
  (y % 4 == 0 && y % 100 != 0) || y % 400 == 0

def monthDays : List Nat := [31, 28, 31, 30, 31, 30, 31, 31, 30, 31, 30, 31]

/-- Days in year `y` strictly before month `m` (1-based). -/
def daysBeforeMonth (y m : Nat) : Nat :=
  (monthDays.take (m - 1)).foldl (· + ·) 0 + (if 2 < m && isLeap y then 1 else 0)

/-- 1-based day of the year. -/
def ordinalDay (d : Date) : Nat :=
  daysBeforeMonth d.year d.month + d.day

/-- `datetime.date.toordinal`: day 1 is 0001-01-01 (a Monday). -/
def toOrdinal (d : Date) : Nat :=
  let p := d.year - 1
  365 * p + p / 4 - p / 100 + p / 400 + ordinalDay d

/-- CPython `_isoweek1monday`: ordinal of the Monday starting ISO week 1
of `year`.  Thursday is weekday 3 when Monday is weekday 0. -/
def isoweek1monday (year : Nat) : Int :=
  let firstday : Int := (toOrdinal ⟨year, 1, 1⟩ : Int)
  let firstweekday : Int := (firstday + 6) % 7
  let week1monday := firstday - firstweekday
  if 3 < firstweekday then week1monday + 7 else week1monday

/-- CPython `datetime.date.isocalendar`, returning
(ISO year, ISO week number, ISO weekday).  `divmod` floors, hence
`Int.fdiv` / `Int.fmod`. -/
def isocalendar (d : Date) : Int × Int × Int :=
  let year : Int := (d.year : Int)
  let today : Int := (toOrdinal d : Int)
  let w1 := isoweek1monday d.year
  let week := Int.fdiv (today - w1) 7
  let day := Int.fmod (today - w1) 7
  if week < 0 then
    let w1p := isoweek1monday (d.year - 1)
    (year - 1, Int.fdiv (today - w1p) 7 + 1, Int.fmod (today - w1p) 7 + 1)
  else if 52 ≤ week && isoweek1monday (d.year + 1) ≤ today then
    (year + 1, 1, day + 1)
  else
    (year, week + 1, day + 1)

/-! ### Python string primitives used by the script -/

/-- The ASCII characters matched by Python's `\s` (and stripped by `int`). -/
def isPyWS (c : Char) : Bool :=
  c = ' ' || c = '\t' || c = '\n' || c = '\r' || c = '\x0b' || c = '\x0c'

/-- `str.zfill`: left-pad with `'0'` to the given width (the inputs here
are unsigned, so the sign handling of `zfill` never fires). -/
def zfill (w : Nat) (s : String) : String :=
  if w ≤ s.length then s
  else String.mk (List.replicate (w - s.length) '0') ++ s

/-- `strftime('%Y')` for the 4-digit years this tool meets. -/
def strfY (d : Date) : String := toString d.year

/-- `strftime('%m')`: zero-padded month. -/
def strfM (d : Date) : String := zfill 2 (toString d.month)

/-- The week field the script computes:
`str(timestamp.isocalendar()[1]).zfill(2)`. -/
def weekField (d : Date) : String := zfill 2 (toString (isocalendar d).2.1)

def pyDigits (cs : List Char) : Option Nat :=
  if cs ≠ [] && cs.all (fun c => c.isDigit) then
    some (cs.foldl (fun a c => a * 10 + (c.toNat - 48)) 0)
  else none

/-- Python `int(str)`: strip whitespace, optional sign, decimal digits;
`none` models the `ValueError` raised on anything else. -/
def pyInt (s : String) : Option Int :=
  let t := ((s.data.dropWhile isPyWS).reverse.dropWhile isPyWS).reverse
  match t with
  | '+' :: ds => (pyDigits ds).map Int.ofNat
  | '-' :: ds => (pyDigits ds).map (fun n => -(Int.ofNat n))
  | ds => (pyDigits ds).map Int.ofNat

/-! ### The redirect regex `^\s*#(виж|redirect)\s+\[\[` with `re.I` -/

/-- Case folding as `re.I` needs it here: ASCII letters and the Cyrillic
range А-Я both lowercase by adding 32 to the code point. -/
def foldCase (c : Char) : Char :=
  if 'A' ≤ c && c ≤ 'Z' then Char.ofNat (c.toNat + 32)
  else if 'А' ≤ c && c ≤ 'Я' then Char.ofNat (c.toNat + 32)
  else c

/-- Match a literal pattern case-insensitively; return the rest. -/
def matchCI : List Char → List Char → Option (List Char)
  | [], rest => some rest
  | _ :: _, [] => none
  | p :: ps, c :: cs => if foldCase c = foldCase p then matchCI ps cs else none

/-- `\s+\[\[`: at least one whitespace, then two opening brackets.
`[` is not whitespace, so greedy matching needs no backtracking. -/
def wsThenOpen : List Char → Bool
  | [] => false
  | c :: rest =>
    isPyWS c &&
      (match rest.dropWhile isPyWS with
       | '[' :: '[' :: _ => true
       | _ => false)

/-- `re.match(r'^\s*#(виж|redirect)\s+\[\[', text, flags=re.I)` as a
Boolean: does the oldest-revision text start with a redirect marker? -/
def isRedirect (s : String) : Bool :=
  match s.data.dropWhile isPyWS with
  | '#' :: rest =>
    (match matchCI "виж".data rest with
     | some r => wsThenOpen r
     | none => false) ||
    (match matchCI "redirect".data rest with
     | some r => wsThenOpen r
     | none => false)
  | _ => false

/-! ### Data model -/

/-- One contribution record, as the script reads it: `contrib[0].title()`,
`contrib[1]` (revision id), `contrib[2]` (timestamp),
`contrib[0].oldest_revision['revid']`, and the oldest revision's text
fetched by `getOldVersion`. -/
structure Contrib where
  title : String
  revid : Nat
  oldestRevid : Nat
  oldestText : String
  ts : Date
deriving DecidableEq, Repr

/-- The keyword arguments of `peruser` that carry logic (the window and
namespace filters are applied by the external contribution source). -/
structure Opts where
  excludes : List String
  createdOnly : Bool
  includeRedirects : Bool
  monthsSince : Option String
  weeksSince : Option String
deriving DecidableEq, Repr

/-- The `stats` dictionary of `peruser`: three insertion-ordered
count mappings. -/
structure Stats where
  years : List (String × Nat)
  months : List (String × Nat)
  weeks : List (String × Nat)
deriving DecidableEq, Repr

/-- The `try: d[k] += 1 except KeyError: d[k] = 1` idiom on an
insertion-ordered dictionary. -/
def bump (k : String) : List (String × Nat) → List (String × Nat)
  | [] => [(k, 1)]
  | (k', v) :: rest => if k' = k then (k', v + 1) :: rest else (k', v) :: bump k rest

/-! ### The all-time aggregator -/

/-- Loop body of `alltime`: `if excludes and contrib[0].title() in
excludes: continue`, then bump the user's counter. -/
def stepAlltime (excludes : List String) (user : String)
    (counts : List (String × Nat)) (c : Contrib) : List (String × Nat) :=
  if !excludes.isEmpty && excludes.elem c.title then counts
  else bump user counts

/-- The `active_users` dictionary after the nested loops of `alltime`:
one pass per user over that user's fetched contributions.  A user with
no counted contribution is never inserted. -/
def alltimeCounts (excludes : List String)
    (users : List (String × List Contrib)) : List (String × Nat) :=
  users.foldl (fun counts uc => uc.2.foldl (stepAlltime excludes uc.1) counts) []

/-- `sorted(..., key=lambda x: x[1], reverse=True)`: descending by
count.  Python's sort is stable, as is `List.mergeSort`. -/
def countGE (p q : String × Nat) : Bool := q.2 ≤ p.2

/-- The ranked `au_list` that `alltime` prints. -/
def alltimeRanked (excludes : List String)
    (users : List (String × List Contrib)) : List (String × Nat) :=
  (alltimeCounts excludes users).mergeSort countGE

/-- `p` appears (somewhere) before `q` in `l`. -/
def appearsBefore (p q : String × Nat) (l : List (String × Nat)) : Prop :=
  [p, q].Sublist l

/-! ### The per-user aggregator -/

/-- `str.split('-')`: split on every dash; `"".split('-') == ['']`. -/
def splitDash : List Char → List (List Char)
  | [] => [[]]
  | c :: rest =>
    let r := splitDash rest
    if c = '-' then [] :: r
    else (c :: r.headD []) :: r.tail

def pySplitDash (s : String) : List String :=
  (splitDash s.data).map String.mk

/-- `cutoff.split('-')[0]` — `split` always yields at least one part. -/
def part0 (cutoff : String) : String := (pySplitDash cutoff).headD ""

/-- `cutoff.split('-')[1]` — raises `IndexError` when there is no
separator. -/
def part1 (cutoff : String) : Except Unit String :=
  match pySplitDash cutoff with
  | _ :: p :: _ => Except.ok p
  | _ => Except.error ()

/-- `int(..)` with `ValueError` surfaced. -/
def pyIntE (s : String) : Except Unit Int :=
  match pyInt s with
  | some n => Except.ok n
  | none => Except.error ()

/-- The two-`if` cutoff gate of `peruser` (lines 68-72 and 79-83),
returning `true` for `continue`.  The first test is
`int(year) < int(cutoff.split('-')[0])`.  The second test's first
operand is the very same comparison, just found false, so Python's
short-circuiting `and` never evaluates the `sub`/`split('-')[1]`
operands: the inner branch is dead. -/
def cutoffGate (cutoff year sub : String) : Except Unit Bool :=
  match pyIntE year with
  | Except.error e => Except.error e
  | Except.ok yc =>
    match pyIntE (part0 cutoff) with
    | Except.error e => Except.error e
    | Except.ok y0 =>
      if yc < y0 then Except.ok true
      else if yc < y0 then
        match pyIntE sub with
        | Except.error e => Except.error e
        | Except.ok sc =>
          match part1 cutoff with
          | Except.error e => Except.error e
          | Except.ok p1 =>
            match pyIntE p1 with
            | Except.error e => Except.error e
            | Except.ok s1 => Except.ok (sc == s1)
      else Except.ok false

/-- `if months_since:` / `if weeks_since:` — Python truthiness: the gate
runs only for a present, non-empty cutoff string. -/
def gateResult (cutoff : Option String) (year sub : String) : Except Unit Bool :=
  match cutoff with
  | none => Except.ok false
  | some cs => if cs.isEmpty then Except.ok false else cutoffGate cs year sub

/-- Loop body of `peruser`: exclusion, created-only and redirect filters
(each `continue`s with the stats untouched), then the year bump, the
month gate, the month bump, the week gate, the week bump.  A gate's
`continue` skips everything after it; a gate's `ValueError` aborts. -/
def stepPeruser (o : Opts) (st : Stats) (c : Contrib) : Except Unit Stats :=
  if !o.excludes.isEmpty && o.excludes.elem c.title then Except.ok st
  else if o.createdOnly && c.revid != c.oldestRevid then Except.ok st
  else if !o.includeRedirects && isRedirect c.oldestText then Except.ok st
  else
    let year := strfY c.ts
    let month := strfM c.ts
    let week := weekField c.ts
    let st1 : Stats := { st with years := bump year st.years }
    match gateResult o.monthsSince year month with
    | Except.error e => Except.error e
    | Except.ok true => Except.ok st1
    | Except.ok false =>
      let st2 : Stats := { st1 with months := bump (year ++ " " ++ month) st1.months }
      match gateResult o.weeksSince year week with
      | Except.error e => Except.error e
      | Except.ok true => Except.ok st2
      | Except.ok false =>
        Except.ok { st2 with weeks := bump (year ++ " " ++ week) st2.weeks }

/-- The whole `peruser` contribution loop over the fetched records. -/
def peruser (o : Opts) (cs : List Contrib) : Except Unit Stats :=
  cs.foldlM (stepPeruser o) ⟨[], [], []⟩

/-! ### `main`'s parameter forwarding -/

def ALLTIME_FROM_DATE : String := "2017-07-01T00:00:00Z"

def PERUSER_FROM_DATE : String := "2008-12-01T00:00:00Z"

/-- Python call semantics for `alltime`'s `since` parameter: the default
`ALLTIME_FROM_DATE` applies only when the argument is omitted
(`none`); an explicitly passed value — even `None` — overrides it. -/
def callAlltimeSince : Option (Option String) → Option String
  | none => some ALLTIME_FROM_DATE
  | some v => v

/-- Python call semantics for `peruser`'s `since` parameter. -/
def callPeruserSince : Option (Option String) → Option String
  | none => some PERUSER_FROM_DATE
  | some v => v

/-- `main` always writes `since=args.since` in both calls, so the
parameter is always passed — `args.since` is `None` when the `-s` flag
is absent. -/
def mainEffectiveSince (totals : Bool) (sinceFlag : Option String) : Option String :=
  if totals then callAlltimeSince (some sinceFlag)
  else callPeruserSince (some sinceFlag)

/-! ### Facts about the month/week gates and the filters -/

lemma gateResult_some (cs year sub : String) (hne : cs.isEmpty = false) :
    gateResult (some cs) year sub = cutoffGate cs year sub := by
  simp [gateResult, hne]

lemma cutoffGate_eval (cutoff year sub : String) (yc y0 : Int)
    (hyc : pyInt year = some yc) (hy0 : pyInt (part0 cutoff) = some y0) :
    cutoffGate cutoff year sub =
      if yc < y0 then Except.ok true else Except.ok false := by
  unfold cutoffGate pyIntE
  rw [hyc, hy0]
  by_cases h : yc < y0 <;> simp [h]

lemma cutoffGate_badYear (cutoff year sub : String) (yc : Int)
    (hyc : pyInt year = some yc) (hbad : pyInt (part0 cutoff) = none) :
    cutoffGate cutoff year sub = Except.error () := by
  unfold cutoffGate pyIntE
  rw [hyc, hbad]

/-- C1: the spec says the months bucket is incremented iff the
contribution's year/month is not earlier than the cutoff, in
particular a same-year earlier-month contribution is not counted.
The code's second gate test re-checks `int(year) < int(cutoff_year)`
(already false) instead of testing equal years, so that branch is
dead: with cutoff `2019-06`, a contribution of 2019-03-15 IS counted
in `months` (`"2019 03"`), contradicting the claim. -/
theorem c1_month_gate_counts_earlier_month :
    peruser ⟨[], false, false, some "2019-06", none⟩
        [⟨"P", 5, 5, "text", ⟨2019, 3, 15⟩⟩] =
      Except.ok ⟨[("2019", 1)], [("2019 03", 1)], [("2019 11", 1)]⟩ := rfl

/-- C2 (counterexample): the claim says a month cutoff that excludes a
contribution from `months` does not prevent `weeks` from being
incremented.  But the month gate's `continue` skips the rest of the
loop body: with month cutoff `2020-01` and no week cutoff, a 2019
contribution leaves `weeks` empty (the claim predicts
`weeks = [("2019 19", 1)]`). -/
theorem c2_month_cutoff_blocks_weeks_cex :
    peruser ⟨[], false, false, some "2020-01", none⟩
        [⟨"P", 5, 5, "text", ⟨2019, 5, 10⟩⟩] =
      Except.ok ⟨[("2019", 1)], [], []⟩ := rfl

/-- C2 (amended): the weeks bucket is NOT independent of the month
cutoff: a contribution that passes the exclusion, created-only and
redirect filters but is skipped by the month-cutoff gate (its year is
below the cutoff year) leaves `months` AND `weeks` untouched; only the
years bucket is incremented. -/
theorem c2_month_gate_gates_weeks (o : Opts) (st : Stats) (c : Contrib)
    (ms : String) (yc y0 : Int)
    (hex : (!o.excludes.isEmpty && o.excludes.elem c.title) = false)
    (hcr : (o.createdOnly && c.revid != c.oldestRevid) = false)
    (hrd : (!o.includeRedirects && isRedirect c.oldestText) = false)
    (hms : o.monthsSince = some ms) (hne : ms.isEmpty = false)
    (hyc : pyInt (strfY c.ts) = some yc) (hy0 : pyInt (part0 ms) = some y0)
    (hlt : yc < y0) :
    stepPeruser o st c =
      Except.ok { st with years := bump (strfY c.ts) st.years } := by
  unfold stepPeruser
  simp only [hex, hcr, hrd, Bool.false_eq_true, if_false]
  have hgate : gateResult o.monthsSince (strfY c.ts) (strfM c.ts) = Except.ok true := by
    rw [hms, gateResult_some _ _ _ hne, cutoffGate_eval _ _ _ _ _ hyc hy0, if_pos hlt]
  rw [hgate]

/-- C4: once the exclusion, created-only and redirect filters pass,
any successful loop-body run bumps the years bucket for the
contribution's `%Y` key exactly once, whatever the month/week cutoffs
do afterwards. -/
theorem c4_years_always_bumped (o : Opts) (st st' : Stats) (c : Contrib)
    (hex : (!o.excludes.isEmpty && o.excludes.elem c.title) = false)
    (hcr : (o.createdOnly && c.revid != c.oldestRevid) = false)
    (hrd : (!o.includeRedirects && isRedirect c.oldestText) = false)
    (hok : stepPeruser o st c = Except.ok st') :
    st'.years = bump (strfY c.ts) st.years := by
  unfold stepPeruser at hok
  simp only [hex, hcr, hrd, Bool.false_eq_true, if_false] at hok
  split at hok
  · exact Except.noConfusion hok
  · injection hok with h; rw [← h]
  · split at hok
    · exact Except.noConfusion hok
    · injection hok with h; rw [← h]
    · injection hok with h; rw [← h]

/-- C5: a contribution whose page title is in the exclusion set is
skipped by both aggregators: the all-time loop body leaves the counter
mapping unchanged and the per-user loop body leaves all three buckets
unchanged. -/
theorem c5_exclusion_skips_both (excl : List String) (u : String)
    (counts : List (String × Nat)) (o : Opts) (st : Stats) (c : Contrib)
    (ho : o.excludes = excl) (hmem : c.title ∈ excl) :
    stepAlltime excl u counts c = counts ∧ stepPeruser o st c = Except.ok st := by
  have h1 : excl.isEmpty = false := by
    cases excl with
    | nil => cases hmem
    | cons x xs => rfl
  have h2 : excl.elem c.title = true := by
    simpa [List.elem_iff] using hmem
  constructor
  · unfold stepAlltime
    rw [h1, h2]
    simp
  · unfold stepPeruser
    rw [ho, h1, h2]
    simp

/-- C6: with `created_only` enabled, a contribution whose revision id
differs from the page's oldest revision id is skipped before any
bucket is touched. -/
theorem c6_created_only_skips (o : Opts) (st : Stats) (c : Contrib)
    (hco : o.createdOnly = true) (hne : c.revid ≠ c.oldestRevid) :
    stepPeruser o st c = Except.ok st := by
  unfold stepPeruser
  by_cases hex : (!o.excludes.isEmpty && o.excludes.elem c.title) = true
  · rw [if_pos hex]
  · rw [if_neg hex, if_pos (by rw [hco]; simpa [bne_iff_ne] using hne)]

/-- C7: with `include_redirects` false (the default) a contribution to
a page whose oldest-revision text matches the redirect marker is
counted in no bucket; with `include_redirects` true the redirect test
is skipped (the loop body never reads the oldest-revision text) and a
contribution passing the other filters is counted — with no cutoffs,
in all three buckets. -/
theorem c7_redirect_filter (o : Opts) (st : Stats) (c : Contrib) :
    (o.includeRedirects = false → isRedirect c.oldestText = true →
      stepPeruser o st c = Except.ok st)
    ∧ (o.includeRedirects = true → ∀ t,
      stepPeruser o st { c with oldestText := t } = stepPeruser o st c)
    ∧ (o.includeRedirects = true →
      (!o.excludes.isEmpty && o.excludes.elem c.title) = false →
      (o.createdOnly && c.revid != c.oldestRevid) = false →
      o.monthsSince = none → o.weeksSince = none →
      stepPeruser o st c = Except.ok
        ⟨bump (strfY c.ts) st.years,
         bump (strfY c.ts ++ " " ++ strfM c.ts) st.months,
         bump (strfY c.ts ++ " " ++ weekField c.ts) st.weeks⟩) := by
  refine ⟨?_, ?_, ?_⟩
  · intro hinc hred
    unfold stepPeruser
    by_cases hex : (!o.excludes.isEmpty && o.excludes.elem c.title) = true
    · rw [if_pos hex]
    · rw [if_neg hex]
      by_cases hcr : (o.createdOnly && c.revid != c.oldestRevid) = true
      · rw [if_pos hcr]
      · rw [if_neg hcr, if_pos (by simp [hinc, hred])]
  · intro hinc t
    unfold stepPeruser
    simp [hinc]
  · intro hinc hex hcr hmn hwn
    unfold stepPeruser
    simp only [hex, hcr, hinc, Bool.not_true, Bool.false_and, Bool.false_eq_true,
      if_false, hmn, hwn]
    rfl

/-- C8: the spec claims that with no `--since` flag the run uses the
fixed epochs `ALLTIME_FROM_DATE` / `PERUSER_FROM_DATE`.  But `main`
always passes `since=args.since`, so the Python parameter defaults
never apply: the effective lower bound is `None` (no bound at all),
not the documented constants — the code contradicts its own `--since`
help text. -/
theorem c8_since_default_never_used :
    mainEffectiveSince true none = none ∧
    mainEffectiveSince false none = none ∧
    callAlltimeSince none = some ALLTIME_FROM_DATE ∧
    callPeruserSince none = some PERUSER_FROM_DATE ∧
    (none : Option String) ≠ some ALLTIME_FROM_DATE ∧
    (none : Option String) ≠ some PERUSER_FROM_DATE := by
  refine ⟨rfl, rfl, rfl, rfl, ?_, ?_⟩ <;> decide

/-- C9 (counterexample): the claim says a cutoff with a missing
separator fails on the first comparison.  With cutoff `"2020"` (no
`-`), the first comparison parses only `split('-')[0] = "2020"`, which
succeeds, and the second field is never parsed (it sits behind a
short-circuited, unreachable conjunct): the run completes normally. -/
theorem c9_missing_separator_no_failure :
    peruser ⟨[], false, false, some "2020", none⟩
        [⟨"P", 5, 5, "text", ⟨2020, 5, 10⟩⟩] =
      Except.ok ⟨[("2020", 1)], [("2020 05", 1)], [("2020 19", 1)]⟩ := rfl

/-- C9 (amended): a cutoff whose YEAR field (the text before the first
`-`) is not a valid integer raises `ValueError` on the first
contribution that reaches the corresponding gate — this holds for the
month gate and for the week gate — and a run that feeds no
contribution to the gates never fails. -/
theorem c9_bad_year_field_fails (o : Opts) (st : Stats) (c : Contrib)
    (ms ws : String) (yc : Int)
    (hex : (!o.excludes.isEmpty && o.excludes.elem c.title) = false)
    (hcr : (o.createdOnly && c.revid != c.oldestRevid) = false)
    (hrd : (!o.includeRedirects && isRedirect c.oldestText) = false)
    (hyc : pyInt (strfY c.ts) = some yc) :
    (o.monthsSince = some ms → ms.isEmpty = false → pyInt (part0 ms) = none →
      stepPeruser o st c = Except.error ())
    ∧ (o.monthsSince = none → o.weeksSince = some ws → ws.isEmpty = false →
      pyInt (part0 ws) = none →
      stepPeruser o st c = Except.error ())
    ∧ peruser o [] = Except.ok ⟨[], [], []⟩ := by
  refine ⟨?_, ?_, rfl⟩
  · intro hms hne hbad
    unfold stepPeruser
    simp only [hex, hcr, hrd, Bool.false_eq_true, if_false]
    have hgate : gateResult o.monthsSince (strfY c.ts) (strfM c.ts) =
        Except.error () := by
      rw [hms, gateResult_some _ _ _ hne, cutoffGate_badYear _ _ _ _ hyc hbad]
    rw [hgate]
  · intro hmn hws hne hbad
    unfold stepPeruser
    simp only [hex, hcr, hrd, Bool.false_eq_true, if_false, hmn]
    have hgate : gateResult (some ws) (strfY c.ts) (weekField c.ts) =
        Except.error () := by
      rw [gateResult_some _ _ _ hne, cutoffGate_badYear _ _ _ _ hyc hbad]
    rw [hws, hgate]
    rfl

/-- C10: the weeks bucket key pairs the timestamp's CALENDAR year
(`strftime('%Y')`) with its ISO week number (`isocalendar()[1]`), even
when the ISO week-numbering year differs from the calendar year — the
ISO year component is discarded. -/
theorem c10_week_key_uses_calendar_year (o : Opts) (st : Stats) (c : Contrib)
    (y : Nat) (wy wk wd : Int)
    (hex : (!o.excludes.isEmpty && o.excludes.elem c.title) = false)
    (hcr : (o.createdOnly && c.revid != c.oldestRevid) = false)
    (hrd : (!o.includeRedirects && isRedirect c.oldestText) = false)
    (hmn : o.monthsSince = none) (hwn : o.weeksSince = none)
    (hy : c.ts.year = y) (hiso : isocalendar c.ts = (wy, wk, wd))
    (_hne : wy ≠ (y : Int)) :
    stepPeruser o st c = Except.ok
      ⟨bump (toString y) st.years,
       bump (toString y ++ " " ++ strfM c.ts) st.months,
       bump (toString y ++ " " ++ zfill 2 (toString wk)) st.weeks⟩ := by
  unfold stepPeruser
  simp only [hex, hcr, hrd, Bool.false_eq_true, if_false, hmn, hwn]
  have h1 : strfY c.ts = toString y := by rw [strfY, hy]
  have h2 : weekField c.ts = zfill 2 (toString wk) := by rw [weekField, hiso]
  rw [h1, h2]
  rfl

/-! ### The all-time ranking: descending by count, stable for ties -/

lemma fst_mem_bump (x k : String) (l : List (String × Nat)) :
    x ∈ (bump k l).map Prod.fst ↔ x ∈ l.map Prod.fst ∨ x = k := by
  induction l with
  | nil => simp [bump]
  | cons p rest ih =>
    obtain ⟨k', v⟩ := p
    by_cases h : k' = k
    · subst h
      simp [bump]
      tauto
    · simp [bump, h, ih]
      tauto

lemma namesNodup_bump (k : String) (l : List (String × Nat))
    (h : (l.map Prod.fst).Nodup) : ((bump k l).map Prod.fst).Nodup := by
  induction l with
  | nil => simp [bump]
  | cons p rest ih =>
    obtain ⟨k', v⟩ := p
    rw [List.map_cons, List.nodup_cons] at h
    by_cases hk : k' = k
    · subst hk
      simpa [bump] using h
    · rw [show bump k ((k', v) :: rest) = (k', v) :: bump k rest from by
        simp [bump, hk]]
      rw [List.map_cons, List.nodup_cons]
      refine ⟨?_, ih h.2⟩
      rw [fst_mem_bump]
      rintro (hmem | rfl)
      · exact h.1 hmem
      · exact hk rfl

lemma namesNodup_stepAlltime (e : List String) (u : String)
    (counts : List (String × Nat)) (c : Contrib)
    (h : (counts.map Prod.fst).Nodup) :
    ((stepAlltime e u counts c).map Prod.fst).Nodup := by
  unfold stepAlltime
  split
  · exact h
  · exact namesNodup_bump u counts h

lemma namesNodup_foldl_contribs (e : List String) (u : String)
    (cs : List Contrib) :
    ∀ counts : List (String × Nat), (counts.map Prod.fst).Nodup →
      (((cs.foldl (stepAlltime e u) counts)).map Prod.fst).Nodup := by
  induction cs with
  | nil => intro counts h; exact h
  | cons c rest ih =>
    intro counts h
    exact ih _ (namesNodup_stepAlltime e u counts c h)

/-- The `active_users` dictionary never holds two entries for the same
user name. -/
lemma alltimeCounts_namesNodup (e : List String)
    (users : List (String × List Contrib)) :
    ((alltimeCounts e users).map Prod.fst).Nodup := by
  unfold alltimeCounts
  have h : ∀ counts : List (String × Nat), (counts.map Prod.fst).Nodup →
      ((users.foldl (fun counts uc => uc.2.foldl (stepAlltime e uc.1) counts)
        counts).map Prod.fst).Nodup := by
    induction users with
    | nil => intro counts h; exact h
    | cons uc rest ih =>
      intro counts h
      exact ih _ (namesNodup_foldl_contribs e uc.1 uc.2 counts h)
  exact h [] (by simp)

lemma pair_sublist_of_mem {α : Type} {a b : α} {l : List α}
    (ha : a ∈ l) (hb : b ∈ l) (hne : a ≠ b) :
    [a, b].Sublist l ∨ [b, a].Sublist l := by
  induction l with
  | nil => cases ha
  | cons c t ih =>
    by_cases hac : a = c
    · subst hac
      left
      have hb' : b ∈ t := by
        rcases List.mem_cons.mp hb with h | h
        · exact absurd h (Ne.symm hne)
        · exact h
      exact List.Sublist.cons₂ a (List.singleton_sublist.mpr hb')
    · by_cases hbc : b = c
      · subst hbc
        right
        have ha' : a ∈ t := by
          rcases List.mem_cons.mp ha with h | h
          · exact absurd h hne
          · exact h
        exact List.Sublist.cons₂ b (List.singleton_sublist.mpr ha')
      · have ha' : a ∈ t := by
          rcases List.mem_cons.mp ha with h | h
          · exact absurd h hac
          · exact h
        have hb' : b ∈ t := by
          rcases List.mem_cons.mp hb with h | h
          · exact absurd h hbc
          · exact h
        rcases ih ha' hb' with h | h
        · exact Or.inl (h.cons c)
        · exact Or.inr (h.cons c)

lemma pair_sublist_antisymm {α : Type} {a b : α} : ∀ {l : List α}, l.Nodup →
    [a, b].Sublist l → [b, a].Sublist l → a = b := by
  intro l
  induction l with
  | nil => intro _ h1; cases h1
  | cons c t ih =>
    intro hnd h1 h2
    rw [List.nodup_cons] at hnd
    cases h1 with
    | cons _ h1' =>
      cases h2 with
      | cons _ h2' => exact ih hnd.2 h1' h2'
      | cons₂ _ h2' => exact absurd (h1'.subset (by simp)) hnd.1
    | cons₂ _ h1' =>
      cases h2 with
      | cons _ h2' => exact absurd (h2'.subset (by simp)) hnd.1
      | cons₂ _ h2' => rfl

instance (p q : String × Nat) (l : List (String × Nat)) :
    Decidable (appearsBefore p q l) :=
  inferInstanceAs (Decidable ([p, q].Sublist l))

/-- C3: in the ranked all-time output, user `A` with counted total `a`
appears before user `B` with counted total `b` iff `a > b`, or
`a = b` and `A` was inserted into the counter dictionary first
(Python's `sorted` with `reverse=True` is a stable descending sort,
modelled by the stable `List.mergeSort`). -/
theorem c3_alltime_ranking (excludes : List String)
    (users : List (String × List Contrib)) (A B : String) (a b : Nat)
    (hA : (A, a) ∈ alltimeCounts excludes users)
    (hB : (B, b) ∈ alltimeCounts excludes users)
    (hAB : A ≠ B) :
    appearsBefore (A, a) (B, b) (alltimeRanked excludes users) ↔
      b < a ∨ (a = b ∧ appearsBefore (A, a) (B, b) (alltimeCounts excludes users)) := by
  have trans : ∀ p q r : String × Nat, countGE p q → countGE q r → countGE p r := by
    intro p q r
    simp only [countGE, decide_eq_true_eq]
    omega
  have total : ∀ p q : String × Nat, countGE p q || countGE q p := by
    intro p q
    simp only [countGE, Bool.or_eq_true, decide_eq_true_eq]
    omega
  have hpq : (A, a) ≠ (B, b) := fun h => hAB (congrArg Prod.fst h)
  have hnd : ((alltimeCounts excludes users).map Prod.fst).Nodup :=
    alltimeCounts_namesNodup excludes users
  have hndl : (alltimeCounts excludes users).Nodup := List.Nodup.of_map Prod.fst hnd
  have hnds : (alltimeRanked excludes users).Nodup :=
    ((List.mergeSort_perm (alltimeCounts excludes users) countGE).nodup_iff).mpr hndl
  have hsorted := @List.sorted_mergeSort _ countGE trans total
    (alltimeCounts excludes users)
  unfold appearsBefore alltimeRanked
  constructor
  · intro h
    rcases Nat.lt_trichotomy b a with hab | hab | hab
    · exact Or.inl hab
    · refine Or.inr ⟨hab.symm, ?_⟩
      rcases pair_sublist_of_mem hA hB hpq with hl | hl
      · exact hl
      · have hs : [(B, b), (A, a)].Sublist (alltimeRanked excludes users) :=
          List.pair_sublist_mergeSort trans total
            (by simp [countGE]; omega) hl
        exact absurd (pair_sublist_antisymm hnds h hs) hpq
    · have hp : List.Pairwise (fun x y => countGE x y = true) [(A, a), (B, b)] :=
        List.Pairwise.sublist h hsorted
      have hle := List.pairwise_pair.mp hp
      simp only [countGE, decide_eq_true_eq] at hle
      omega
  · rintro (hba | ⟨hab, hbf⟩)
    · rcases pair_sublist_of_mem (l := alltimeRanked excludes users)
        (List.mem_mergeSort.mpr hA) (List.mem_mergeSort.mpr hB) hpq with hl | hl
      · exact hl
      · have hp : List.Pairwise (fun x y => countGE x y = true) [(B, b), (A, a)] :=
          List.Pairwise.sublist hl hsorted
        have hle := List.pairwise_pair.mp hp
        simp only [countGE, decide_eq_true_eq] at hle
        omega
    · exact List.pair_sublist_mergeSort trans total
        (by simp [countGE, hab]) hbf

/-- C3 witness: Carol (2 counted edits) is encountered first, then
Alice and Bob (5 each); Alice appears before Bob in the ranking
because among the tie she was encountered first. -/
theorem c3_alltime_ranking_witness :
    appearsBefore ("Alice", 5) ("Bob", 5)
      (alltimeRanked []
        [("Carol", List.replicate 2 ⟨"P", 1, 1, "t", ⟨2019, 1, 1⟩⟩),
         ("Alice", List.replicate 5 ⟨"P", 1, 1, "t", ⟨2019, 1, 1⟩⟩),
         ("Bob", List.replicate 5 ⟨"P", 1, 1, "t", ⟨2019, 1, 1⟩⟩)]) :=
  (c3_alltime_ranking _ _ _ _ _ _ (by decide) (by decide) (by decide)).mpr
    (Or.inr ⟨rfl, by decide⟩)

/-! ### Witnesses for the hypothesis-bearing theorems -/

/-- C2 witness: month cutoff `2020-01` skips a July 2018 contribution
before the weeks bucket; only the years bucket grows. -/
theorem c2_month_gate_gates_weeks_witness :
    stepPeruser ⟨[], false, false, some "2020-01", none⟩ ⟨[], [], []⟩
        ⟨"Q", 7, 7, "body", ⟨2018, 7, 1⟩⟩ =
      Except.ok ⟨[("2018", 1)], [], []⟩ :=
  c2_month_gate_gates_weeks _ _ _ "2020-01" 2018 2020
    rfl rfl rfl rfl rfl rfl rfl (by decide)

/-- C4 witness: Scenario 4 — month cutoff `2020-01`, contribution of
January 2019: counted in `years`, omitted from `months`. -/
theorem c4_years_always_bumped_witness :
    stepPeruser ⟨[], false, false, some "2020-01", none⟩ ⟨[], [], []⟩
        ⟨"P", 5, 5, "text", ⟨2019, 1, 15⟩⟩ =
      Except.ok ⟨[("2019", 1)], [], []⟩ ∧
    Stats.years ⟨[("2019", 1)], [], []⟩ = bump (strfY ⟨2019, 1, 15⟩) [] :=
  ⟨rfl, c4_years_always_bumped ⟨[], false, false, some "2020-01", none⟩
      ⟨[], [], []⟩ ⟨[("2019", 1)], [], []⟩ ⟨"P", 5, 5, "text", ⟨2019, 1, 15⟩⟩
      rfl rfl rfl rfl⟩

/-- C5 witness: excluding `Sandbox` drops a `Sandbox` contribution in
both aggregators. -/
theorem c5_exclusion_skips_both_witness :
    stepAlltime ["Sandbox"] "U" [] ⟨"Sandbox", 1, 1, "t", ⟨2019, 1, 1⟩⟩ = [] ∧
    stepPeruser ⟨["Sandbox"], false, false, none, none⟩ ⟨[], [], []⟩
        ⟨"Sandbox", 1, 1, "t", ⟨2019, 1, 1⟩⟩ = Except.ok ⟨[], [], []⟩ :=
  c5_exclusion_skips_both _ _ _ _ _ _ rfl (by decide)

/-- C6 witness: with `created_only`, an edit whose revision id (2) is
not the oldest revision id (1) is not counted. -/
theorem c6_created_only_skips_witness :
    stepPeruser ⟨[], true, false, none, none⟩ ⟨[], [], []⟩
        ⟨"P", 2, 1, "t", ⟨2019, 1, 1⟩⟩ = Except.ok ⟨[], [], []⟩ :=
  c6_created_only_skips _ _ _ rfl (by decide)

/-- C7 witness: a `#REDIRECT [[..]]` page is dropped by default,
ignored as text when `include_redirects` is set, and then counted in
all three buckets. -/
theorem c7_redirect_filter_witness :
    stepPeruser ⟨[], false, false, none, none⟩ ⟨[], [], []⟩
        ⟨"P", 5, 5, "#REDIRECT [[Foo]]", ⟨2019, 3, 15⟩⟩ = Except.ok ⟨[], [], []⟩ ∧
    stepPeruser ⟨[], false, true, none, none⟩ ⟨[], [], []⟩
        ⟨"P", 5, 5, "plain", ⟨2019, 3, 15⟩⟩ =
      stepPeruser ⟨[], false, true, none, none⟩ ⟨[], [], []⟩
        ⟨"P", 5, 5, "#REDIRECT [[Foo]]", ⟨2019, 3, 15⟩⟩ ∧
    stepPeruser ⟨[], false, true, none, none⟩ ⟨[], [], []⟩
        ⟨"P", 5, 5, "#REDIRECT [[Foo]]", ⟨2019, 3, 15⟩⟩ =
      Except.ok ⟨[("2019", 1)], [("2019 03", 1)], [("2019 11", 1)]⟩ :=
  ⟨(c7_redirect_filter _ _ _).1 rfl (by decide),
   (c7_redirect_filter ⟨[], false, true, none, none⟩ ⟨[], [], []⟩
      ⟨"P", 5, 5, "#REDIRECT [[Foo]]", ⟨2019, 3, 15⟩⟩).2.1 rfl "plain",
   (c7_redirect_filter _ _ _).2.2 rfl rfl rfl rfl rfl⟩

/-- C9 witness: a non-numeric year field (`20x0-01`) aborts the month
gate and the week gate with `ValueError`; an empty contribution list
never reaches a gate and succeeds. -/
theorem c9_bad_year_field_fails_witness :
    stepPeruser ⟨[], false, false, some "20x0-01", none⟩ ⟨[], [], []⟩
        ⟨"P", 5, 5, "text", ⟨2020, 5, 10⟩⟩ = Except.error () ∧
    stepPeruser ⟨[], false, false, none, some "20y0-01"⟩ ⟨[], [], []⟩
        ⟨"P", 5, 5, "text", ⟨2020, 5, 10⟩⟩ = Except.error () ∧
    peruser ⟨[], false, false, some "20x0-01", none⟩ [] = Except.ok ⟨[], [], []⟩ :=
  ⟨(c9_bad_year_field_fails ⟨[], false, false, some "20x0-01", none⟩ ⟨[], [], []⟩
      ⟨"P", 5, 5, "text", ⟨2020, 5, 10⟩⟩ "20x0-01" "w" 2020 rfl rfl rfl rfl).1
      rfl rfl rfl,
   (c9_bad_year_field_fails ⟨[], false, false, none, some "20y0-01"⟩ ⟨[], [], []⟩
      ⟨"P", 5, 5, "text", ⟨2020, 5, 10⟩⟩ "m" "20y0-01" 2020 rfl rfl rfl rfl).2.1
      rfl rfl rfl rfl,
   (c9_bad_year_field_fails ⟨[], false, false, some "20x0-01", none⟩ ⟨[], [], []⟩
      ⟨"P", 5, 5, "text", ⟨2020, 5, 10⟩⟩ "x" "y" 2020 rfl rfl rfl rfl).2.2⟩

/-- C10 witness: 2019-12-31 lies in ISO week 1 of ISO year 2020, yet
its weeks key is `"2019 01"` — calendar year 2019 paired with ISO week
01. -/
theorem c10_week_key_uses_calendar_year_witness :
    stepPeruser ⟨[], false, false, none, none⟩ ⟨[], [], []⟩
        ⟨"P", 5, 5, "text", ⟨2019, 12, 31⟩⟩ =
      Except.ok ⟨[("2019", 1)], [("2019 12", 1)], [("2019 01", 1)]⟩ ∧
    isocalendar ⟨2019, 12, 31⟩ = (2020, 1, 2) :=
  ⟨c10_week_key_uses_calendar_year _ _ _ 2019 2020 1 2
      rfl rfl rfl rfl rfl rfl rfl (by decide), rfl⟩

end Wikistats
